import Mathlib

/-!
Verification of the digestiflow-cli ingest core against its specification.

The definitions below are shallow embeddings of the Rust source in
`src/ingest/{bcl_data,bcl_meta,mod,api}.rs`.  Machine integers are modelled
as `Nat`/`Int`, byte streams as `List Nat` (each entry `< 256` where it
matters), the filesystem as a predicate on paths (lists of components),
gzip decompression as already applied (functions receive the decompressed
byte stream), and fallible code returns `Option` or `Except`.  A Rust
panic is modelled as a distinguished outcome (`none` / a `panic`
constructor), kept separate from a returned `Result::Err`.
-/

namespace Digestiflow

/-- The base-call lookup table `vec!['A', 'C', 'G', 'T']` used by both the
BCL and the CBCL decoder (`bcl_data.rs`). -/
def baseTable : List Char := ['A', 'C', 'G', 'T']

/-! ## CBCL sub-tile decoding (`load_from_cbcl`, bcl_data.rs lines 217-251)

The Rust code seeks to the tile's compressed block and reads bytes from a
single-member gzip stream.  We model the decompressed byte stream of the
tile as `bytes : List Nat`; iteration `j` of the loop reads byte `j`.
`num_clusters` is the header's cluster count for the tile and `srpt` the
configured `sample_reads_per_tile` (the code applies `min` without a
positivity test here).  Running out of bytes makes `read_u8` fail, which we
model as `none`. -/

/-- One loop iteration of `load_from_cbcl`: from byte `b` at index `j`,
push `table[b & 3]` and, when `num_bytes > j * 2`, also push
`table[(b >> 4) & 3]`.  (`b & 3 = b % 4`, `(b >> 4) & 3 = b / 16 % 4`.) -/
def cbclIterChars (k j b : Nat) : List Char :=
  baseTable.getD (b % 4) 'A' ::
    (if k > j * 2 then [baseTable.getD (b / 16 % 4) 'A'] else [])

/-- Shallow embedding of `load_from_cbcl`: `num_bytes = min(num_clusters,
sample_reads_per_tile)`; the loop runs `j = 0 .. (num_bytes + 1) / 2`,
reading one byte per iteration. -/
def load_from_cbcl (bytes : List Nat) (num_clusters srpt : Nat) :
    Option (List Char) :=
  let k := min num_clusters srpt
  let numIter := (k + 1) / 2
  if bytes.length < numIter then none
  else some ((List.range numIter).flatMap
    (fun j => cbclIterChars k j (bytes.getD j 0)))

/-! ## Plain / gzip BCL loading (`load_bcl`, `load_bcl_gz`, bcl_data.rs)

Both functions read a little-endian `u32` cluster count, clamp it by
`sample_reads_per_tile` when that setting is positive, and `read_exact`
that many payload bytes.  For the gzip variant the stream below is the
(multi-member) decompressed content. -/

/-- Parse a little-endian `u32` from the first four bytes of a stream,
returning the value and the rest (`read_u32::<LittleEndian>`). -/
def readU32LE (s : List Nat) : Option (Nat × List Nat) :=
  match s with
  | b0 :: b1 :: b2 :: b3 :: rest =>
      some (b0 + b1 * 256 + b2 * 65536 + b3 * 16777216, rest)
  | _ => none

/-- The little-endian 4-byte encoding of a `u32` value. -/
def leBytes (n : Nat) : List Nat :=
  [n % 256, n / 256 % 256, n / 65536 % 256, n / 16777216 % 256]

/-- Shallow embedding of `load_bcl` / `load_bcl_gz` after decompression:
read the `u32` count, clamp it when `sample_reads_per_tile > 0`, then
`read_exact` that many bytes (`none` when the stream is too short). -/
def load_bcl (srpt : Int) (s : List Nat) : Option (List Nat) :=
  (readU32LE s).bind (fun p =>
    let numBytes := if srpt > 0 then min p.1 srpt.toNat else p.1
    if p.2.length < numBytes then none else some (p.2.take numBytes))

/-- Per-byte decoding applied to plain/gzip BCL buffers in
`analyze_stacks` (bcl_data.rs lines 296-305): a zero byte is a no-call
`'N'`, any other byte maps through `table[byte & 3]`. -/
def bclChar (b : Nat) : Char :=
  if b = 0 then 'N' else baseTable.getD (b % 4) 'A'

/-- Full plain/gzip BCL decode: load the buffer, then map `bclChar`. -/
def bclChars (srpt : Int) (s : List Nat) : Option (List Char) :=
  (load_bcl srpt s).map (List.map bclChar)

/-! ## Histogram construction (`analyze_stacks`, bcl_data.rs lines 332-344)

The Rust `HashMap<String, usize>` is modelled as an association list with
at most one entry per key; insertion order follows first appearance, which
is irrelevant to the claims (they quantify over entries). -/

/-- Lookup in the association-list model of `HashMap`. -/
def hmGet (m : List (String × Nat)) (key : String) : Option Nat :=
  (m.find? (fun e => e.1 = key)).map (fun e => e.2)

/-- Insert-or-replace in the association-list model of `HashMap`. -/
def hmPut (m : List (String × Nat)) (key : String) (v : Nat) :
    List (String × Nat) :=
  match m with
  | [] => [(key, v)]
  | e :: rest => if e.1 = key then (key, v) :: rest else e :: hmPut rest key v

/-- One iteration of the counting loop
`*hist.entry(seq.clone()).or_insert(1) += 1`: the entry's current value
(defaulting to `1` when absent, as written in the source) is incremented. -/
def histStep (m : List (String × Nat)) (seq : String) :
    List (String × Nat) :=
  hmPut m seq ((hmGet m seq).getD 1 + 1)

/-- The histogram built by `analyze_stacks` over the decoded sequences. -/
def buildHist (seqs : List String) : List (String × Nat) :=
  seqs.foldl histStep []

/-- The filtering pass: keep `(seq, count)` when
`count as f64 > (num_seqs as f64) * min_index_fraction`.  The `f64`
threshold is modelled as a rational `phi`. -/
def filterHist (numSeqs : Nat) (phi : ℚ) (m : List (String × Nat)) :
    List (String × Nat) :=
  m.filter (fun e => (e.2 : ℚ) > (numSeqs : ℚ) * phi)

/-! ## Per-lane sequence assembly (`analyze_stacks`, bcl_data.rs lines 315-352)

Given the decoded per-cycle arrays `bases` of one lane, the code sets
`num_seqs = bases[0].len()` and builds, for each `i < num_seqs`, the
string `bases[0][i] bases[1][i] ...`.  There is no length check: indexing
`bases[j][i]` out of bounds is a Rust panic, modelled as the `panic`
outcome. -/

/-- Outcome of the per-lane phase of `analyze_stacks`: either the pair
(`sample_size`, per-cluster sequences) or a panic from out-of-bounds
indexing. -/
inductive LaneOutcome
  | ok (sample_size : Nat) (seqs : List String)
  | panic
  deriving DecidableEq, Repr

/-- Shallow embedding of the sequence-building phase of `analyze_stacks`
for one lane, starting from the decoded per-cycle arrays. -/
def buildLaneSeqs (bases : List (List Char)) : LaneOutcome :=
  match bases with
  | [] => LaneOutcome.panic
  | b0 :: _ =>
      let n := b0.length
      if bases.all (fun b => n ≤ b.length) then
        LaneOutcome.ok n ((List.range n).map
          (fun i => String.mk (bases.map (fun b => b.getD i 'A'))))
      else LaneOutcome.panic

/-- The `IndexCounts` record emitted per lane (bcl_data.rs lines 31-41). -/
structure IndexCounts where
  index_no : Int
  lane_no : Int
  sample_size : Nat
  hist : List (String × Nat)
  deriving DecidableEq, Repr

/-- The per-lane body of `analyze_stacks` after decoding: build sequences,
count, filter, and emit `IndexCounts` (or panic). -/
def analyzeLane (index_no lane_no : Int) (phi : ℚ)
    (bases : List (List Char)) : Option IndexCounts :=
  match buildLaneSeqs bases with
  | LaneOutcome.panic => none
  | LaneOutcome.ok n seqs =>
      some ⟨index_no, lane_no, n, filterHist n phi (buildHist seqs)⟩

/-! ## Folder-layout detection (`guess_folder_layout`, bcl_meta.rs lines 23-72)

Paths are modelled as lists of components (`Path::join` appends one
component); the filesystem is a predicate `ex` telling which paths exist.
-/

/-- The four folder layouts (`FolderLayout` enum, bcl_meta.rs). -/
inductive FolderLayout
  | MiSeq
  | MiniSeq
  | HiSeqX
  | NovaSeq
  deriving DecidableEq, Repr

/-- Error outcome of layout detection (`bail!` in `guess_folder_layout`). -/
inductive LayoutError
  | LayoutUnknown
  deriving DecidableEq, Repr

/-- The marker files probed by `guess_folder_layout`, built exactly as the
four `vec![...]`s in the source. -/
def miniseq_markers (path : List String) : List (List String) :=
  [path ++ ["Data", "Intensities", "BaseCalls", "L001"],
   path ++ ["RunParameters.xml"]]

/-- MiSeq markers from the source. -/
def miseq_marker (path : List String) : List (List String) :=
  [path ++ ["Data", "Intensities", "BaseCalls", "L001", "C1.1"],
   path ++ ["runParameters.xml"]]

/-- HiSeqX markers from the source. -/
def hiseqx_marker (path : List String) : List (List String) :=
  [path ++ ["Data", "Intensities", "s.locs"],
   path ++ ["RunParameters.xml"]]

/-- NovaSeq "any of" markers from the source. -/
def novaseq_marker_any (path : List String) : List (List String) :=
  [path ++ ["Data", "Intensities", "BaseCalls", "L001", "C1.1", "L001_1.cbcl"],
   path ++ ["Data", "Intensities", "BaseCalls", "L001", "C1.1", "L001_2.cbcl"]]

/-- NovaSeq "all of" markers from the source. -/
def novaseq_marker_all (path : List String) : List (List String) :=
  [path ++ ["RunParameters.xml"]]

/-- Shallow embedding of `guess_folder_layout`: the if/else chain over the
marker vectors, using `all`/`any` as the source does. -/
def guess_folder_layout (ex : List String → Bool) (path : List String) :
    Except LayoutError FolderLayout :=
  if (novaseq_marker_all path).all ex && (novaseq_marker_any path).any ex then
    Except.ok FolderLayout.NovaSeq
  else if (miseq_marker path).all ex then Except.ok FolderLayout.MiSeq
  else if (miniseq_markers path).all ex then Except.ok FolderLayout.MiniSeq
  else if (hiseqx_marker path).all ex then Except.ok FolderLayout.HiSeqX
  else Except.error LayoutError.LayoutUnknown

/-- The detection rules as the specification words them: an ordered list of
(condition, layout) pairs, NovaSeq first, the first matching rule winning. -/
def layoutRules (ex : List String → Bool) (path : List String) :
    List (Bool × FolderLayout) :=
  [(ex (path ++ ["RunParameters.xml"]) &&
      (ex (path ++ ["Data", "Intensities", "BaseCalls", "L001", "C1.1",
                    "L001_1.cbcl"]) ||
       ex (path ++ ["Data", "Intensities", "BaseCalls", "L001", "C1.1",
                    "L001_2.cbcl"])),
    FolderLayout.NovaSeq),
   (ex (path ++ ["Data", "Intensities", "BaseCalls", "L001", "C1.1"]) &&
      ex (path ++ ["runParameters.xml"]),
    FolderLayout.MiSeq),
   (ex (path ++ ["Data", "Intensities", "BaseCalls", "L001"]) &&
      ex (path ++ ["RunParameters.xml"]),
    FolderLayout.MiniSeq),
   (ex (path ++ ["Data", "Intensities", "s.locs"]) &&
      ex (path ++ ["RunParameters.xml"]),
    FolderLayout.HiSeqX)]

/-- Specification-side detector: first matching rule, else `LayoutUnknown`. -/
def layoutFromRules (ex : List String → Bool) (path : List String) :
    Except LayoutError FolderLayout :=
  match (layoutRules ex path).find? (fun r => r.1) with
  | some r => Except.ok r.2
  | none => Except.error LayoutError.LayoutUnknown

/-- All marker paths that `guess_folder_layout` may probe for a directory. -/
def layoutMarkers (path : List String) : List (List String) :=
  novaseq_marker_all path ++ novaseq_marker_any path ++ miseq_marker path ++
    miniseq_markers path ++ hiseqx_marker path

/-! ## Manifest records and status derivation (bcl_meta.rs) -/

/-- `ReadDescription` (bcl_meta.rs lines 74-79). -/
structure ReadDescription where
  number : Int
  num_cycles : Int
  is_index : Bool
  deriving DecidableEq, Repr

/-- `string_description` (bcl_meta.rs lines 81-87): `num_cycles` followed
by `B` for an index read and `T` otherwise, joined with `""`. -/
def string_description (read_descs : List ReadDescription) : String :=
  String.join (read_descs.map
    (fun x => toString x.num_cycles ++ (if x.is_index then "B" else "T")))

/-- `RunInfo` (bcl_meta.rs lines 89-99). -/
structure RunInfo where
  run_id : String
  run_number : Int
  flowcell : String
  instrument : String
  date : String
  lane_count : Int
  reads : List ReadDescription
  deriving DecidableEq, Repr

/-- `RunParameters` (bcl_meta.rs lines 176-183). -/
structure RunParameters where
  planned_reads : List ReadDescription
  rta_version : String
  run_number : Int
  flowcell_slot : String
  experiment_name : String
  deriving DecidableEq, Repr

/-- Shallow embedding of `get_status_sequencing` (bcl_meta.rs lines
361-377); `ex` models file existence. -/
def get_status_sequencing (ex : List String → Bool) (run_info : RunInfo)
    (run_params : RunParameters) (path : List String)
    (current_status : String) : String :=
  if current_status = "closed" ∨ current_status = "failed" ∨
      current_status = "complete" then
    current_status
  else if run_params.planned_reads ≠ [] ∧
      run_info.reads ≠ run_params.planned_reads then
    "failed"
  else if ex (path ++ ["RTAComplete.txt"]) then "complete"
  else "in_progress"

/-! ## The `FlowCell` record and its construction (api.rs, mod.rs) -/

/-- `api::FlowCell` (api.rs lines 8-28). -/
structure FlowCell where
  sodar_uuid : Option String
  run_date : String
  run_number : Int
  slot : String
  vendor_id : String
  label : Option String
  manual_label : Option String
  description : Option String
  sequencing_machine : String
  num_lanes : Int
  operator : Option String
  rta_version : Int
  status_sequencing : String
  status_conversion : String
  status_delivery : String
  delivery_type : String
  planned_reads : Option String
  current_reads : Option String
  deriving DecidableEq, Repr

/-- Value of a decimal digit character. -/
def digitVal (c : Char) : Option Nat :=
  if c.isDigit then some (c.toNat - 48) else none

/-- Decimal digit-string parse: all characters must be digits and at least
one must be present. -/
def parseDigits (cs : List Char) : Option Nat :=
  match cs with
  | [] => none
  | _ =>
      cs.foldl (fun acc c => acc.bind
        (fun a => (digitVal c).map (fun d => a * 10 + d))) (some 0)

/-- Model of Rust `str::parse::<i32>`: an optional sign followed by one or
more digits (the `i32` range check is immaterial to the claims and
omitted). -/
def parseI32 (cs : List Char) : Option Int :=
  match cs with
  | '+' :: rest => (parseDigits rest).map (fun n => (n : Int))
  | '-' :: rest => (parseDigits rest).map (fun n => -(n : Int))
  | _ => (parseDigits cs).map (fun n => (n : Int))

/-- The RTA-version parse in `build_flow_cell`:
`rta_version.split('.').next().parse::<i32>()`.  The first element of
`split('.')` is the prefix up to the first `'.'` (the whole string when
there is none); a parse failure is a Rust panic, modelled as `none`. -/
def parseRtaVersion (s : String) : Option Int :=
  parseI32 (s.toList.takeWhile (fun c => c ≠ '.'))

/-- Shallow embedding of `build_flow_cell` (mod.rs lines 24-62); the
`settings.ingest.operator` string is passed directly.  `none` models the
panic on an unparseable RTA version. -/
def build_flow_cell (ex : List String → Bool) (run_info : RunInfo)
    (run_params : RunParameters) (path : List String)
    (status_sequencing : Option String) (operator : String) :
    Option FlowCell :=
  (parseRtaVersion run_params.rta_version).map (fun rta =>
    { sodar_uuid := none
      run_date := run_info.date
      run_number := run_info.run_number
      slot := run_params.flowcell_slot
      vendor_id := run_info.flowcell
      label := some run_params.experiment_name
      manual_label := none
      description := none
      sequencing_machine := run_info.instrument
      num_lanes := run_info.lane_count
      operator := some operator
      rta_version := rta
      status_sequencing := get_status_sequencing ex run_info run_params path
        (status_sequencing.getD "initial")
      status_conversion := "initial"
      status_delivery := "initial"
      delivery_type := "seq"
      planned_reads := some (string_description run_params.planned_reads)
      current_reads := some (string_description run_info.reads) })

/-- The merge performed by `update_flowcell` (mod.rs lines 111-116): the
struct-update expression taking `planned_reads`, `current_reads` and
`status_sequencing` from the rebuilt record and everything else from the
remote one. -/
def merge_flowcell (rebuilt remote : FlowCell) : FlowCell :=
  { remote with
    planned_reads := rebuilt.planned_reads
    current_reads := rebuilt.current_reads
    status_sequencing := rebuilt.status_sequencing }

/-- Shallow embedding of `update_flowcell` (mod.rs lines 92-127) up to the
PUT request: rebuild with the remote status as previous status, then merge
into the remote record. -/
def update_flowcell (ex : List String → Bool) (run_info : RunInfo)
    (run_params : RunParameters) (path : List String) (operator : String)
    (remote : FlowCell) : Option FlowCell :=
  (build_flow_cell ex run_info run_params path
      (some remote.status_sequencing) operator).map
    (fun rebuilt => merge_flowcell rebuilt remote)

/-! ## REST paths (api.rs) -/

/-- `ResolveFlowCellArgs` (api.rs lines 31-36). -/
structure ResolveFlowCellArgs where
  project_uuid : String
  instrument : String
  run_number : Int
  flowcell : String

/-- Shallow embedding of `RestPath<&ResolveFlowCellArgs>::get_path`
(api.rs lines 38-45):
`format!("api/flowcells/resolve/{}/{}/{}/{}/", project_uuid, instrument,
run_number, flowcell)`. -/
def resolveFlowCellPath (a : ResolveFlowCellArgs) : String :=
  "api/flowcells/resolve/" ++ a.project_uuid ++ "/" ++ a.instrument ++
    "/" ++ toString a.run_number ++ "/" ++ a.flowcell ++ "/"

/-- The resolve path as the specification claims it, with the project UUID
segment preceding the literal `resolve` segment. -/
def resolveFlowCellPathClaimed (a : ResolveFlowCellArgs) : String :=
  "api/flowcells/" ++ a.project_uuid ++ "/resolve/" ++ a.instrument ++
    "/" ++ toString a.run_number ++ "/" ++ a.flowcell ++ "/"

/-- The `/`-separated segments of the resolve path actually built by the
code (before the trailing slash). -/
def resolveSegments (a : ResolveFlowCellArgs) : List String :=
  ["api", "flowcells", "resolve", a.project_uuid, a.instrument,
   toString a.run_number, a.flowcell]

/-! ## The REST synchronization step (`process_folder`, mod.rs lines 309-387)

The branching after the resolve GET depends only on the
`register`/`update`/`skip_if_status_final` settings, the resolve outcome
and the remote record's `status_sequencing`; we model it as a pure
function into an action type.  `result.expect(...)` on an `Err` is a Rust
panic. -/

/-- Outcome of the resolve GET as matched by the source: `Ok`, an HTTP 404,
or anything else. -/
inductive ResolveOutcome
  | found (fc : FlowCell)
  | httpNotFound
  | otherFailure
  deriving DecidableEq, Repr

/-- The action `process_folder` takes after resolving. `useRemote` issues
no request; `putUpdate` leads to a PUT, `postRegister` to a POST;
`skipOk` is the early `return Ok(())`; `fatalFailure` is the `bail!`;
`panicked` is the `expect` panic. -/
inductive SyncStep
  | useRemote (fc : FlowCell)
  | putUpdate (remote : FlowCell)
  | postRegister
  | skipOk
  | fatalFailure
  | panicked
  deriving DecidableEq, Repr

/-- Shallow embedding of the synchronization branching in `process_folder`
(mod.rs lines 317-387). -/
def sync_step (reg upd skipFinal : Bool) (resolve : ResolveOutcome) :
    SyncStep :=
  if reg || upd then
    match resolve with
    | ResolveOutcome.found fc =>
        if upd then
          if fc.status_sequencing ≠ "initial" ∧
              fc.status_sequencing ≠ "in_progress" then
            if skipFinal then SyncStep.useRemote fc else SyncStep.putUpdate fc
          else SyncStep.putUpdate fc
        else SyncStep.useRemote fc
    | ResolveOutcome.httpNotFound =>
        if reg then SyncStep.postRegister else SyncStep.skipOk
    | ResolveOutcome.otherFailure => SyncStep.fatalFailure
  else
    match resolve with
    | ResolveOutcome.found fc => SyncStep.useRemote fc
    | _ => SyncStep.panicked

/-! ## Concrete inputs used by witnesses -/

/-- A filesystem with no extant files, for witnesses. -/
def exNone : List String → Bool := fun _ => false

/-- A filesystem holding exactly the NovaSeq markers of the root
directory, for witnesses. -/
def exNova : List String → Bool := fun l =>
  l = ["RunParameters.xml"] ||
    l = ["Data", "Intensities", "BaseCalls", "L001", "C1.1", "L001_1.cbcl"]

/-- A second filesystem agreeing with `exNova` on every layout marker of
the root directory but differing elsewhere, for witnesses. -/
def exNovaB : List String → Bool := fun l =>
  l = ["Data", "Intensities", "BaseCalls", "L001", "C1.1", "L001_1.cbcl"] ||
    (l = ["RunParameters.xml"] || l = ["unrelated.txt"])

/-- A concrete `RunInfo`, for witnesses. -/
def runInfoW : RunInfo :=
  { run_id := "RID", run_number := 7, flowcell := "VID", instrument := "M0",
    date := "2021-05-03", lane_count := 1,
    reads := [{ number := 1, num_cycles := 76, is_index := false }] }

/-- A concrete `RunParameters` with no planned reads, for witnesses. -/
def runParamsW : RunParameters :=
  { planned_reads := [], rta_version := "2.7.6", run_number := 7,
    flowcell_slot := "A", experiment_name := "EXP" }

/-- A concrete remote `FlowCell`, for witnesses. -/
def remoteW : FlowCell :=
  { sodar_uuid := some "UUID", run_date := "2020-01-01", run_number := 3,
    slot := "B", vendor_id := "V2", label := some "L",
    manual_label := some "ML", description := some "D",
    sequencing_machine := "M9", num_lanes := 8, operator := some "OP2",
    rta_version := 9, status_sequencing := "complete",
    status_conversion := "done", status_delivery := "done",
    delivery_type := "dt", planned_reads := some "8B",
    current_reads := some "8B" }

/-- The record `build_flow_cell` produces from `runInfoW`/`runParamsW`
with the remote status as previous status, for witnesses. -/
def rebuiltW : FlowCell :=
  { sodar_uuid := none, run_date := "2021-05-03", run_number := 7,
    slot := "A", vendor_id := "VID", label := some "EXP",
    manual_label := none, description := none, sequencing_machine := "M0",
    num_lanes := 1, operator := some "OP", rta_version := 2,
    status_sequencing := "complete", status_conversion := "initial",
    status_delivery := "initial", delivery_type := "seq",
    planned_reads := some "", current_reads := some "76T" }

/-- The merged record `update_flowcell` sends for
`rebuiltW`/`remoteW`, for witnesses. -/
def sentW : FlowCell :=
  { remoteW with
    planned_reads := some ""
    current_reads := some "76T"
    status_sequencing := "complete" }

/-- Decidable equality for `Except` results, used to evaluate the layout
detector on concrete inputs. -/
instance {ε α : Type} [DecidableEq ε] [DecidableEq α] :
    DecidableEq (Except ε α) := fun a b =>
  match a, b with
  | Except.ok x, Except.ok y =>
      if h : x = y then isTrue (by rw [h])
      else isFalse (by intro he; cases he; exact h rfl)
  | Except.error x, Except.error y =>
      if h : x = y then isTrue (by rw [h])
      else isFalse (by intro he; cases he; exact h rfl)
  | Except.ok _, Except.error _ => isFalse (by intro he; cases he)
  | Except.error _, Except.ok _ => isFalse (by intro he; cases he)

/-!
# Theorems

One theorem per claim of the specification (with witnesses and
counterexamples where required), over the embedding above.
-/

/-- Helper: parsing a little-endian `u32` back from its 4-byte encoding
followed by a payload returns the value and the payload. -/
theorem readU32LE_leBytes (n : Nat) (rest : List Nat)
    (h : n < 4294967296) :
    readU32LE (leBytes n ++ rest) = some (n, rest) := by
  simp [readU32LE, leBytes]
  omega

/-- Claim C1: the specification says a CBCL sub-tile with
`k = min(num_clusters, sample_reads_per_tile)` clusters decodes to exactly
`k` bases.  The code is off by one for odd `k`: with `num_clusters = 1`,
`sample_reads_per_tile = 1` and tile byte `0x00`, `load_from_cbcl` emits
two bases (the guard `num_bytes > j * 2` also admits the padding high
nibble of the last byte), not `min 1 1 = 1`. -/
theorem claim_C1_cbcl_odd_count_extra_base :
    load_from_cbcl [0] 1 1 = some ['A', 'A'] ∧
      (['A', 'A'] : List Char).length ≠ min 1 1 := by
  decide

/-- Claim C2: the specification says the unfiltered histogram assigns each
distinct sequence its number of occurrences.  The code initializes fresh
entries with `or_insert(1)` before incrementing, so every count is
occurrences + 1: over the single decoded sequence list `["A"]` (with
`min_index_fraction = 1`), the emitted `IndexCounts` histogram is
`[("A", 2)]` although `"A"` occurs once (and its true ratio `1/1` is not
above the threshold `1`). -/
theorem claim_C2_hist_overcounts_by_one :
    analyzeLane 1 1 1 [['A']] = some ⟨1, 1, 1, [("A", 2)]⟩ ∧
      (["A"].count "A") = 1 := by
  constructor
  · simp [analyzeLane, buildLaneSeqs, filterHist, buildHist, histStep,
      hmGet, hmPut]
  · decide

/-- Claim C3: the specification says decoded per-cycle arrays of different
lengths make `analyze_stacks` fail with *StackLengthMismatch*.  The code
performs no length check: with arrays `['A']` and `['C','G']` of lengths
1 and 2 it silently succeeds, truncating to the first array's length and
emitting `sample_size = 1`. -/
theorem claim_C3_no_stack_length_check :
    buildLaneSeqs [['A'], ['C', 'G']] = LaneOutcome.ok 1 ["AC"] ∧
      (['A'] : List Char).length ≠ (['C', 'G'] : List Char).length := by
  decide

/-- Claim C4: a plain/gzip BCL stream carrying the little-endian `u32`
cluster count `n` decodes to exactly
`k = min(n, sample_reads_per_tile)` clusters when the setting is
positive and to all `n` when it is not, each payload byte `b` mapping to
`'N'` when `b = 0` and to `table[b & 3]` otherwise. -/
theorem claim_C4_plain_gzip_bcl_decode (n : Nat) (payload : List Nat)
    (srpt : Int) (hn : n < 4294967296)
    (hlen : (if srpt > 0 then min n srpt.toNat else n) ≤ payload.length) :
    bclChars srpt (leBytes n ++ payload) =
      some ((payload.take (if srpt > 0 then min n srpt.toNat else n)).map
        (fun b => if b = 0 then 'N' else baseTable.getD (b % 4) 'A')) := by
  have h32 := readU32LE_leBytes n payload hn
  by_cases hs : srpt > 0
  · rw [if_pos hs] at hlen ⊢
    simp only [bclChars, load_bcl, h32, Option.some_bind, if_pos hs]
    rw [if_neg (by omega)]
    rfl
  · rw [if_neg hs] at hlen ⊢
    simp only [bclChars, load_bcl, h32, Option.some_bind, if_neg hs]
    rw [if_neg (by omega)]
    rfl

/-- Witness for claim C4: a two-cluster unclamped file whose bytes are
`0` (no call) and `5` (base code `5 & 3 = 1`, i.e. `C`). -/
theorem claim_C4_plain_gzip_bcl_decode_witness :
    bclChars 0 (leBytes 2 ++ [0, 5]) = some ['N', 'C'] :=
  (claim_C4_plain_gzip_bcl_decode 2 [0, 5] 0 (by decide)
    (by decide)).trans (by decide)

/-- Claim C5: `guess_folder_layout` evaluates the rules in the order
NovaSeq, MiSeq, MiniSeq, HiSeqX, returns the first matching layout
(`LayoutUnknown` when none matches), and is a pure function of which
marker files exist: two filesystems agreeing on all marker paths yield
the same result. -/
theorem claim_C5_layout_rule_order_and_purity
    (ex exB : List String → Bool) (path : List String) :
    guess_folder_layout ex path = layoutFromRules ex path ∧
    ((∀ m ∈ layoutMarkers path, ex m = exB m) →
      guess_folder_layout ex path = guess_folder_layout exB path) := by
  constructor
  · cases h1 : ex (path ++ ["RunParameters.xml"]) <;>
    cases h2 : ex (path ++ ["Data", "Intensities", "BaseCalls", "L001",
      "C1.1", "L001_1.cbcl"]) <;>
    cases h3 : ex (path ++ ["Data", "Intensities", "BaseCalls", "L001",
      "C1.1", "L001_2.cbcl"]) <;>
    cases h4 : ex (path ++ ["Data", "Intensities", "BaseCalls", "L001",
      "C1.1"]) <;>
    cases h5 : ex (path ++ ["runParameters.xml"]) <;>
    cases h6 : ex (path ++ ["Data", "Intensities", "BaseCalls", "L001"]) <;>
    cases h7 : ex (path ++ ["Data", "Intensities", "s.locs"]) <;>
    simp [guess_folder_layout, layoutFromRules, layoutRules,
      miniseq_markers, miseq_marker, hiseqx_marker, novaseq_marker_any,
      novaseq_marker_all, List.find?, h1, h2, h3, h4, h5, h6, h7]
  · intro hagree
    have h1 := hagree (path ++ ["RunParameters.xml"])
      (by simp [layoutMarkers, novaseq_marker_all])
    have h2 := hagree (path ++ ["Data", "Intensities", "BaseCalls",
      "L001", "C1.1", "L001_1.cbcl"])
      (by simp [layoutMarkers, novaseq_marker_any])
    have h3 := hagree (path ++ ["Data", "Intensities", "BaseCalls",
      "L001", "C1.1", "L001_2.cbcl"])
      (by simp [layoutMarkers, novaseq_marker_any])
    have h4 := hagree (path ++ ["Data", "Intensities", "BaseCalls",
      "L001", "C1.1"]) (by simp [layoutMarkers, miseq_marker])
    have h5 := hagree (path ++ ["runParameters.xml"])
      (by simp [layoutMarkers, miseq_marker])
    have h6 := hagree (path ++ ["Data", "Intensities", "BaseCalls",
      "L001"]) (by simp [layoutMarkers, miniseq_markers])
    have h7 := hagree (path ++ ["Data", "Intensities", "s.locs"])
      (by simp [layoutMarkers, hiseqx_marker])
    simp only [guess_folder_layout, miniseq_markers, miseq_marker,
      hiseqx_marker, novaseq_marker_any, novaseq_marker_all,
      List.all_cons, List.all_nil, List.any_cons, List.any_nil,
      h1, h2, h3, h4, h5, h6, h7]

/-- Witness for claim C5: a NovaSeq directory is detected as such, and a
filesystem agreeing on all markers (but not elsewhere) gives the same
answer. -/
theorem claim_C5_layout_rule_order_and_purity_witness :
    guess_folder_layout exNova [] = Except.ok FolderLayout.NovaSeq ∧
      guess_folder_layout exNova [] = guess_folder_layout exNovaB [] :=
  ⟨by decide,
   (claim_C5_layout_rule_order_and_purity exNova exNovaB []).2 (by decide)⟩

/-- Claim C6: `get_status_sequencing` returns a terminal current status
(closed, failed, complete) unchanged; otherwise it returns `"failed"`
when the planned reads are non-empty and differ from the observed reads,
else `"complete"` when `RTAComplete.txt` exists under the path, else
`"in_progress"`. -/
theorem claim_C6_derive_status (ex : List String → Bool)
    (run_info : RunInfo) (run_params : RunParameters) (path : List String)
    (cur : String) :
    (cur = "closed" ∨ cur = "failed" ∨ cur = "complete" →
      get_status_sequencing ex run_info run_params path cur = cur) ∧
    (¬(cur = "closed" ∨ cur = "failed" ∨ cur = "complete") →
      run_params.planned_reads ≠ [] →
      run_info.reads ≠ run_params.planned_reads →
      get_status_sequencing ex run_info run_params path cur = "failed") ∧
    (¬(cur = "closed" ∨ cur = "failed" ∨ cur = "complete") →
      (run_params.planned_reads = [] ∨
        run_info.reads = run_params.planned_reads) →
      ex (path ++ ["RTAComplete.txt"]) = true →
      get_status_sequencing ex run_info run_params path cur = "complete") ∧
    (¬(cur = "closed" ∨ cur = "failed" ∨ cur = "complete") →
      (run_params.planned_reads = [] ∨
        run_info.reads = run_params.planned_reads) →
      ex (path ++ ["RTAComplete.txt"]) = false →
      get_status_sequencing ex run_info run_params path cur =
        "in_progress") := by
  unfold get_status_sequencing
  split_ifs with h1 h2 h3 <;>
    refine ⟨?_, ?_, ?_, ?_⟩ <;> intros <;> simp_all

/-- Witness for claim C6: a terminal `"failed"` is kept; from
`"in_progress"` with matching reads, no planned reads, and no
`RTAComplete.txt`, the status stays `"in_progress"`. -/
theorem claim_C6_derive_status_witness :
    get_status_sequencing exNone runInfoW runParamsW [] "failed" =
        "failed" ∧
      get_status_sequencing exNone runInfoW runParamsW [] "in_progress" =
        "in_progress" :=
  ⟨(claim_C6_derive_status exNone runInfoW runParamsW [] "failed").1
      (by decide),
   (claim_C6_derive_status exNone runInfoW runParamsW []
      "in_progress").2.2.2 (by decide) (by decide) (by decide)⟩

/-- Claim C7 counterexample: with resolve = 404, registration disabled and
updating also disabled, `process_folder` reaches
`result.expect(...)` and panics; it does not end the directory with a
successful skip, refuting the claim's "regardless of whether updating is
enabled". -/
theorem claim_C7_counterexample :
    sync_step false false true ResolveOutcome.httpNotFound =
        SyncStep.panicked ∧
      SyncStep.panicked ≠ SyncStep.skipOk := by
  decide

/-- Claim C7 (amended): when resolve returns 404 and registration is
disabled, the directory ends with a successful skip (no POST or PUT)
provided updating is enabled; when updating is also disabled the code
panics instead; and whenever registration or updating is enabled, a
resolve outcome that is neither success nor 404 is a fatal error for the
directory. -/
theorem claim_C7_skip_on_404 (skipFinal : Bool) :
    sync_step false true skipFinal ResolveOutcome.httpNotFound =
        SyncStep.skipOk ∧
    sync_step false false skipFinal ResolveOutcome.httpNotFound =
        SyncStep.panicked ∧
    (∀ re up sf : Bool, (re || up) = true →
      sync_step re up sf ResolveOutcome.otherFailure =
        SyncStep.fatalFailure) := by
  refine ⟨rfl, rfl, ?_⟩
  intro re up sf h
  simp [sync_step, h]

/-- Witness for claim C7 (amended): concrete skip, panic, and fatal
outcomes. -/
theorem claim_C7_skip_on_404_witness :
    sync_step false true true ResolveOutcome.httpNotFound =
        SyncStep.skipOk ∧
      sync_step false false true ResolveOutcome.httpNotFound =
        SyncStep.panicked ∧
      sync_step true false true ResolveOutcome.otherFailure =
        SyncStep.fatalFailure :=
  ⟨(claim_C7_skip_on_404 true).1, (claim_C7_skip_on_404 true).2.1,
   (claim_C7_skip_on_404 true).2.2 true false true (by decide)⟩

/-- Claim C8: the record `update_flowcell` sends takes exactly
`planned_reads`, `current_reads` and `status_sequencing` from the rebuilt
record, and every other field equals the corresponding field of the
remote record. -/
theorem claim_C8_update_merge (ex : List String → Bool)
    (run_info : RunInfo) (run_params : RunParameters) (path : List String)
    (op : String) (remote rebuilt sent : FlowCell)
    (hre : build_flow_cell ex run_info run_params path
        (some remote.status_sequencing) op = some rebuilt)
    (hsent : update_flowcell ex run_info run_params path op remote =
        some sent) :
    sent.planned_reads = rebuilt.planned_reads ∧
    sent.current_reads = rebuilt.current_reads ∧
    sent.status_sequencing = rebuilt.status_sequencing ∧
    sent.sodar_uuid = remote.sodar_uuid ∧
    sent.run_date = remote.run_date ∧
    sent.run_number = remote.run_number ∧
    sent.slot = remote.slot ∧
    sent.vendor_id = remote.vendor_id ∧
    sent.label = remote.label ∧
    sent.manual_label = remote.manual_label ∧
    sent.description = remote.description ∧
    sent.sequencing_machine = remote.sequencing_machine ∧
    sent.num_lanes = remote.num_lanes ∧
    sent.operator = remote.operator ∧
    sent.rta_version = remote.rta_version ∧
    sent.status_conversion = remote.status_conversion ∧
    sent.status_delivery = remote.status_delivery ∧
    sent.delivery_type = remote.delivery_type := by
  simp only [update_flowcell, hre, Option.map_some', Option.some_inj]
    at hsent
  subst hsent
  simp [merge_flowcell]

/-- Witness for claim C8: concrete rebuild and merge around `remoteW`. -/
theorem claim_C8_update_merge_witness :
    sentW.planned_reads = rebuiltW.planned_reads ∧
    sentW.current_reads = rebuiltW.current_reads ∧
    sentW.status_sequencing = rebuiltW.status_sequencing ∧
    sentW.sodar_uuid = remoteW.sodar_uuid ∧
    sentW.run_date = remoteW.run_date ∧
    sentW.run_number = remoteW.run_number ∧
    sentW.slot = remoteW.slot ∧
    sentW.vendor_id = remoteW.vendor_id ∧
    sentW.label = remoteW.label ∧
    sentW.manual_label = remoteW.manual_label ∧
    sentW.description = remoteW.description ∧
    sentW.sequencing_machine = remoteW.sequencing_machine ∧
    sentW.num_lanes = remoteW.num_lanes ∧
    sentW.operator = remoteW.operator ∧
    sentW.rta_version = remoteW.rta_version ∧
    sentW.status_conversion = remoteW.status_conversion ∧
    sentW.status_delivery = remoteW.status_delivery ∧
    sentW.delivery_type = remoteW.delivery_type :=
  claim_C8_update_merge exNone runInfoW runParamsW [] "OP" remoteW
    rebuiltW sentW (by decide) (by decide)

/-- Claim C9 counterexample: on concrete arguments the path the code
builds puts the literal `resolve` segment before the project UUID, so it
differs from the claimed `api/flowcells/{proj}/resolve/...` shape. -/
theorem claim_C9_counterexample :
    resolveFlowCellPath ⟨"p", "i", 1, "v"⟩ =
        "api/flowcells/resolve/p/i/1/v/" ∧
      resolveFlowCellPath ⟨"p", "i", 1, "v"⟩ ≠
        resolveFlowCellPathClaimed ⟨"p", "i", 1, "v"⟩ := by
  decide

/-- Claim C9 (amended): the resolve request path is
`api/flowcells/resolve/{proj}/{instr}/{run#}/{vendor_id}/` — the literal
`resolve` segment precedes the project UUID segment. -/
theorem claim_C9_resolve_path (a : ResolveFlowCellArgs) :
    resolveFlowCellPath a =
      String.intercalate "/" (resolveSegments a) ++ "/" := by
  simp [resolveFlowCellPath, resolveSegments, String.intercalate,
    String.intercalate.go, String.append_assoc]

/-- Claim C10: `get_status_sequencing` always lands in
{failed, complete, in_progress, closed} — never `"initial"`, never an
echoed unrecognized status — and hence every `FlowCell` built by
`build_flow_cell` carries a `status_sequencing` in that set. -/
theorem claim_C10_status_codomain (ex : List String → Bool)
    (run_info : RunInfo) (run_params : RunParameters) (path : List String)
    (cur : String) :
    get_status_sequencing ex run_info run_params path cur ∈
      (["failed", "complete", "in_progress", "closed"] : List String) ∧
    (∀ (st : Option String) (op : String) (fc : FlowCell),
      build_flow_cell ex run_info run_params path st op = some fc →
      fc.status_sequencing ∈
        (["failed", "complete", "in_progress", "closed"] : List String)) := by
  have hmain : ∀ c : String,
      get_status_sequencing ex run_info run_params path c ∈
        (["failed", "complete", "in_progress", "closed"] : List String) := by
    intro c
    unfold get_status_sequencing
    split_ifs with h1 h2 h3
    · rcases h1 with h | h | h <;> simp [h]
    · simp
    · simp
    · simp
  refine ⟨hmain cur, ?_⟩
  intro st op fc hfc
  simp only [build_flow_cell, Option.map_eq_some'] at hfc
  obtain ⟨rta, _, rfl⟩ := hfc
  exact hmain _

/-- Witness for claim C10: a concrete built flow cell (default previous
status `"initial"`) carries an allowed sequencing status. -/
theorem claim_C10_status_codomain_witness :
    rebuiltW.status_sequencing ∈
      (["failed", "complete", "in_progress", "closed"] : List String) :=
  (claim_C10_status_codomain exNone runInfoW runParamsW [] "initial").2
    (some remoteW.status_sequencing) "OP" rebuiltW (by decide)

end Digestiflow
